import Mathlib

/-!
Shallow embedding of the access-log filter in
`pkg/logger/log/accesslog.go` of `go-restful-plugins`.

Go strings are modelled as Lean `String` (their byte sequences as
`List Char`, adequate for the ASCII data the claims exercise); Go `int`
comparisons are modelled on `Int`.  External helpers from other packages
of the repository (`util.MinifyJSON`, `MaskFields`, `MaskQueryParams`)
are abstracted as function parameters in `LogEnv`, so every theorem holds
for all implementations of those collaborators.
-/

/-! ### Models of the Go standard library used by `init` -/

/-- Model of Go `strconv.ParseBool`: first component is the returned value
(`false` on error, matching Go's zero value), second is success. -/
def parseBoolGo (s : String) : Bool × Bool :=
  match s with
  | "1" | "t" | "T" | "TRUE" | "true" | "True" => (true, true)
  | "0" | "f" | "F" | "FALSE" | "false" | "False" => (false, true)
  | _ => (false, false)

/-- Value of a digit character, as in Go `strconv` (letters are digits
beyond 9). -/
def digitVal (c : Char) : Option Nat :=
  if '0' ≤ c ∧ c ≤ '9' then some (c.toNat - '0'.toNat)
  else if 'a' ≤ c ∧ c ≤ 'z' then some (c.toNat - 'a'.toNat + 10)
  else if 'A' ≤ c ∧ c ≤ 'Z' then some (c.toNat - 'A'.toNat + 10)
  else none

/-- Parse a non-empty run of digits in the given base; `none` on the empty
string or any character that is not a digit of the base. -/
def parseUintDigits (base : Nat) (cs : List Char) : Option Nat :=
  match cs with
  | [] => none
  | _ :: _ =>
    cs.foldl
      (fun acc c =>
        match acc, digitVal c with
        | some n, some d => if d < base then some (n * base + d) else none
        | _, _ => none)
      (some 0)

/-- Split an optional leading sign, as `strconv.ParseInt` does; first
component is `true` for a leading minus. -/
def signSplit (cs : List Char) : Bool × List Char :=
  match cs with
  | '-' :: r => (true, r)
  | '+' :: r => (false, r)
  | r => (false, r)

/-- Base detection of `strconv.ParseInt` with base argument 0: `0x`/`0X`
means 16, `0b`/`0B` means 2, `0o`/`0O` means 8, a remaining leading `0`
means legacy octal, otherwise decimal. -/
def baseSplit (cs : List Char) : Nat × List Char :=
  match cs with
  | '0' :: x :: r =>
    if x == 'x' || x == 'X' then (16, r)
    else if x == 'b' || x == 'B' then (2, r)
    else if x == 'o' || x == 'O' then (8, r)
    else (8, x :: r)
  | cs => (10, cs)

/-- Final step of `strconv.ParseInt(s, 0, 64)`: on a syntax error return
(0, error); on 64-bit range overflow return the clamped extreme with an
error; otherwise the value with success. -/
def finishInt (neg : Bool) (digitsVal : Option Nat) : Int × Bool :=
  match digitsVal with
  | none => (0, false)
  | some n =>
    let v : Int := if neg then -(n : Int) else (n : Int)
    if v < -(2 ^ 63) then (-(2 ^ 63), false)
    else if v > 2 ^ 63 - 1 then (2 ^ 63 - 1, false)
    else (v, true)

/-- Model of Go `strconv.ParseInt(s, 0, 64)` (sign, then base prefix, then
digits, then 64-bit range clamp; digit-separator underscores are not
modelled, no claim depends on them).  First component is the returned
value, second is success. -/
def parseIntGo (s : String) : Int × Bool :=
  finishInt (signSplit s.data).1
    (parseUintDigits (baseSplit (signSplit s.data).2).1 (baseSplit (signSplit s.data).2).2)

/-! ### Models of the Go `strings` helpers used by the filter -/

/-- `leadsList p s` is true when `p` is an initial segment of `s`. -/
def leadsList : List Char → List Char → Bool
  | [], _ => true
  | _ :: _, [] => false
  | p :: ps, c :: cs => p == c && leadsList ps cs

/-- `containsSeq s pat` is true when `pat` occurs contiguously inside `s`
(the semantics of Go `strings.Contains`). -/
def containsSeq (s pat : List Char) : Bool :=
  match s with
  | [] => leadsList pat []
  | c :: cs => leadsList pat (c :: cs) || containsSeq cs pat

/-- Model of Go `strings.Contains(s, sub)`. -/
def goStringContains (s sub : String) : Bool :=
  containsSeq s.data sub.data

/-- Replace every occurrence of the single character `t` by the list `r`;
this is `strings.ReplaceAll` specialised to a one-character pattern, which
is how `getRequestBody`/`getResponseBody` use it. -/
def replaceAllChar : List Char → Char → List Char → List Char
  | [], _, _ => []
  | c :: cs, t, r => (if c == t then r else [c]) ++ replaceAllChar cs t r

/-- The newline-escaping applied to non-JSON bodies:
`strings.ReplaceAll(s, "\n", "\\n")` then `strings.ReplaceAll(s, "\r", "\\r")`. -/
def escapeNewlines (cs : List Char) : String :=
  String.mk (replaceAllChar (replaceAllChar cs '\n' ['\\', 'n']) '\r' ['\\', 'r'])

/-! ### The capture policy (the `FullAccessLog*` package globals) -/

/-- The package-level configuration globals of `accesslog.go`. -/
structure FullAccessLogConfig where
  FullAccessLogEnabled : Bool
  FullAccessLogSupportedContentTypes : List String
  FullAccessLogMaxBodySize : Int
  FullAccessLogRequestBodyEnabled : Bool
  FullAccessLogResponseBodyEnabled : Bool

/-- The default supported content types set by `init` when the environment
variable is absent. -/
def defaultSupportedContentTypes : List String :=
  ["application/json", "application/xml", "application/x-www-form-urlencoded",
   "text/plain", "text/html"]

/-- Model of the package `init` function: each argument is the looked-up
environment variable (`none` when unset).  On a parse error Go's parse
functions still return a value (their zero value, or a clamped extreme),
and `init` assigns that value after merely logging the error. -/
def initConfig (envEnabled envTypes envMax envReqBody envRespBody : Option String) :
    FullAccessLogConfig where
  FullAccessLogEnabled :=
    match envEnabled with
    | some s => (parseBoolGo s).1
    | none => false
  FullAccessLogSupportedContentTypes :=
    match envTypes with
    | some s => s.splitOn ","
    | none => defaultSupportedContentTypes
  FullAccessLogMaxBodySize :=
    match envMax with
    | some s => (parseIntGo s).1
    | none => 10240
  FullAccessLogRequestBodyEnabled :=
    match envReqBody with
    | some s => (parseBoolGo s).1
    | none => true
  FullAccessLogResponseBodyEnabled :=
    match envRespBody with
    | some s => (parseBoolGo s).1
    | none => true

/-! ### Request, response-interceptor and environment models -/

/-- The claims of `iam.JWTClaims` that `AccessLog` reads. -/
structure JWTClaims where
  Namespace : String
  Subject : String
  ClientID : String

/-- A request body stream.  `pending` is the byte content `io.ReadAll`
yields; `readErr` records that the read ends in an error after yielding
those bytes (`io.ReadAll` returns the data read so far together with the
error). -/
structure BodyStream where
  pending : List Char
  readErr : Bool

/-- The parts of a `restful.Request` the filter reads.  Attributes are the
request-scoped values set by inner collaborator filters; `jwtClaims` is the
result of `iam.RetrieveJWTClaims`. -/
structure RestfulRequest where
  body : BodyStream
  contentType : String
  uri : String
  namespaceAttr : Option String
  userIDAttr : Option String
  clientIDAttr : Option String
  maskedQueryParamsAttr : Option String
  maskedRequestFieldsAttr : Option String
  maskedResponseFieldsAttr : Option String
  jwtClaims : Option JWTClaims

/-- State of the `ResponseWriterInterceptor` after the downstream chain
ran: `data` is the side buffer that mirrored every byte the handler wrote,
and `responseContentType` the Content-Type header it carries. -/
structure ResponseWriterInterceptor where
  data : List Char
  responseContentType : String

/-- The configuration together with the external collaborators the filter
calls: `util.MinifyJSON`, `MaskFields` (contentType, body, fieldSpec) and
`MaskQueryParams` (uri, paramSpec), abstracted as arbitrary functions. -/
structure LogEnv where
  cfg : FullAccessLogConfig
  MinifyJSON : List Char → String
  MaskFields : String → String → String → String
  MaskQueryParams : String → String → String

/-! ### The capture functions and the filter body -/

/-- Model of `isSupportedContentType`, with the package global passed
explicitly as `types`. -/
def isSupportedContentType (types : List String) (contentType : String) : Bool :=
  types.any fun v => goStringContains contentType v

/-- Model of `getRequestBody`.  The second component is the request body
stream the downstream handler will observe: the source resets
`req.Request.Body` to a fresh buffer of the read bytes whenever the read
yielded at least one byte, and otherwise leaves the (now consumed, or
never touched) stream in place. -/
def getRequestBody (env : LogEnv) (req : RestfulRequest) (contentType : String) :
    String × BodyStream :=
  if contentType == "" ||
      !isSupportedContentType env.cfg.FullAccessLogSupportedContentTypes contentType then
    ("", req.body)
  else
    let bodyBytes := req.body.pending
    if bodyBytes.length != 0 then
      let restored : BodyStream := { pending := bodyBytes, readErr := false }
      if (bodyBytes.length : Int) > env.cfg.FullAccessLogMaxBodySize then
        ("data too large", restored)
      else if goStringContains contentType "application/json" then
        (env.MinifyJSON bodyBytes, restored)
      else
        (escapeNewlines bodyBytes, restored)
    else
      ("", req.body)

/-- Model of `getResponseBody`. -/
def getResponseBody (env : LogEnv) (respWriter : ResponseWriterInterceptor)
    (contentType : String) : String :=
  if contentType == "" ||
      !isSupportedContentType env.cfg.FullAccessLogSupportedContentTypes contentType then
    ""
  else if (respWriter.data.length : Int) > env.cfg.FullAccessLogMaxBodySize then
    "data too large"
  else if goStringContains contentType "application/json" then
    env.MinifyJSON respWriter.data
  else
    escapeNewlines respWriter.data

/-- The fields of the emitted record that the claims concern, named after
the local variables of `AccessLog` that feed the format string. -/
structure AccessLogRecord where
  tokenNamespace : String
  tokenUserID : String
  tokenClientID : String
  requestUri : String
  requestBody : String
  responseBody : String

/-- Model of the `AccessLog` filter: the body-capture, masking and
identity-resolution logic that assembles the record, in source order.
The returned `BodyStream` is the request body as the downstream chain
(`chain.ProcessFilter`) observes it. -/
def AccessLog (env : LogEnv) (req : RestfulRequest)
    (respWriterInterceptor : ResponseWriterInterceptor) : AccessLogRecord × BodyStream :=
  let requestContentType := req.contentType
  let captured :=
    if env.cfg.FullAccessLogEnabled && env.cfg.FullAccessLogRequestBodyEnabled then
      getRequestBody env req requestContentType
    else
      ("-", req.body)
  let requestBody := captured.1
  let bodyForChain := captured.2
  let tokenNamespace :=
    match req.namespaceAttr with
    | some v => v
    | none => ""
  let tokenUserID :=
    match req.userIDAttr with
    | some v => v
    | none => ""
  let tokenClientID :=
    match req.clientIDAttr with
    | some v => v
    | none => ""
  let tokenNamespace :=
    match req.jwtClaims with
    | some jwtClaims => if tokenNamespace == "" then jwtClaims.Namespace else tokenNamespace
    | none => tokenNamespace
  let tokenUserID :=
    match req.jwtClaims with
    | some jwtClaims => if tokenUserID == "" then jwtClaims.Subject else tokenUserID
    | none => tokenUserID
  let tokenClientID :=
    match req.jwtClaims with
    | some jwtClaims => if tokenClientID == "" then jwtClaims.ClientID else tokenClientID
    | none => tokenClientID
  let requestUri :=
    match req.maskedQueryParamsAttr with
    | some maskedQueryParams => env.MaskQueryParams req.uri maskedQueryParams
    | none => req.uri
  let responseContentType := respWriterInterceptor.responseContentType
  let responseBody := "-"
  let requestBody :=
    if env.cfg.FullAccessLogEnabled && env.cfg.FullAccessLogRequestBodyEnabled then
      match req.maskedRequestFieldsAttr with
      | some maskedRequestFields =>
        if requestBody == "" then requestBody
        else env.MaskFields requestContentType requestBody maskedRequestFields
      | none => requestBody
    else requestBody
  let responseBody :=
    if env.cfg.FullAccessLogEnabled && env.cfg.FullAccessLogResponseBodyEnabled then
      let rb := getResponseBody env respWriterInterceptor responseContentType
      match req.maskedResponseFieldsAttr with
      | some maskedResponseFields =>
        if rb == "" then rb
        else env.MaskFields responseContentType rb maskedResponseFields
      | none => rb
    else responseBody
  ({ tokenNamespace := tokenNamespace
     tokenUserID := tokenUserID
     tokenClientID := tokenClientID
     requestUri := requestUri
     requestBody := requestBody
     responseBody := responseBody }, bodyForChain)

/-- The single emitted line, mirroring the `fullAccessLogFormat` constant;
the purely numeric and timing fields are passed as their already-formatted
strings. -/
def fullAccessLogLine (timeStr method statusStr durationStr lengthStr sourceIP
    userAgent referer traceID requestContentType responseContentType operation : String)
    (r : AccessLogRecord) : String :=
  "time=" ++ timeStr ++ " log_type=access method=" ++ method ++ " path=\"" ++
    r.requestUri ++ "\" status=" ++ statusStr ++ " duration=" ++ durationStr ++
    " length=" ++ lengthStr ++ " source_ip=" ++ sourceIP ++ " user_agent=\"" ++
    userAgent ++ "\" referer=\"" ++ referer ++ "\" trace_id=" ++ traceID ++
    " namespace=" ++ r.tokenNamespace ++ " user_id=" ++ r.tokenUserID ++
    " client_id=" ++ r.tokenClientID ++ " request_content_type=\"" ++
    requestContentType ++ "\" request_body=AB[" ++ r.requestBody ++
    "]AB response_content_type=\"" ++ responseContentType ++
    "\" response_body=AB[" ++ r.responseBody ++ "]AB operation=\"" ++ operation ++ "\""

/-! ### Concrete instances used by witnesses and counterexamples -/

/-- A trivial instantiation of the external collaborators: the minifier
renders the bytes unchanged and the maskers return their input. -/
def stubEnv (cfg : FullAccessLogConfig) : LogEnv where
  cfg := cfg
  MinifyJSON := fun bs => String.mk bs
  MaskFields := fun _ body _ => body
  MaskQueryParams := fun uri _ => uri

/-- A request with the given content type and body and no attributes, no
token. -/
def plainRequest (ct : String) (body : BodyStream) : RestfulRequest where
  body := body
  contentType := ct
  uri := "/"
  namespaceAttr := none
  userIDAttr := none
  clientIDAttr := none
  maskedQueryParamsAttr := none
  maskedRequestFieldsAttr := none
  maskedResponseFieldsAttr := none
  jwtClaims := none

/-- Request used to exercise the identity-precedence logic: an explicit
namespace attribute, an empty user-id attribute, no client-id attribute,
and a decoded token carrying all three claims. -/
def witnessRequestC8 : RestfulRequest :=
  { plainRequest "" ⟨[], false⟩ with
    namespaceAttr := some "ns-set"
    userIDAttr := some ""
    jwtClaims := some ⟨"jwt-ns", "jwt-sub", "jwt-cid"⟩ }

/-! ### Helper lemmas -/

/-- `leadsList` decides being an initial segment. -/
theorem leadsList_eq_true_iff (p : List Char) :
    ∀ s, leadsList p s = true ↔ ∃ r, s = p ++ r := by
  induction p with
  | nil => intro s; simp [leadsList]
  | cons a ps ih =>
    intro s
    cases s with
    | nil => simp [leadsList]
    | cons b bs =>
      simp only [leadsList, Bool.and_eq_true, beq_iff_eq, ih, List.cons_append,
        List.cons.injEq]
      constructor
      · rintro ⟨hab, r, hr⟩
        exact ⟨r, hab.symm, hr⟩
      · rintro ⟨r, hba, hr⟩
        exact ⟨hba.symm, r, hr⟩

/-- `containsSeq` decides contiguous containment, the semantics the spec
ascribes to the substring match of the content-type policy. -/
theorem containsSeq_eq_true_iff (s p : List Char) :
    containsSeq s p = true ↔ ∃ l r, s = l ++ p ++ r := by
  induction s with
  | nil =>
    simp only [containsSeq, leadsList_eq_true_iff]
    constructor
    · rintro ⟨r, hr⟩
      exact ⟨[], r, by simpa using hr⟩
    · rintro ⟨l, r, hr⟩
      refine ⟨r, ?_⟩
      rcases List.append_eq_nil.mp (List.append_eq_nil.mp hr.symm).1 with ⟨hl, hp⟩
      simp_all
  | cons c cs ih =>
    simp only [containsSeq, Bool.or_eq_true, leadsList_eq_true_iff, ih]
    constructor
    · rintro (⟨r, hr⟩ | ⟨l, r, hr⟩)
      · exact ⟨[], r, by simpa using hr⟩
      · exact ⟨c :: l, r, by simp [hr]⟩
    · rintro ⟨l, r, hr⟩
      cases l with
      | nil => exact Or.inl ⟨r, by simpa using hr⟩
      | cons a l =>
        simp only [List.cons_append, List.cons.injEq] at hr
        exact Or.inr ⟨l, r, hr.2⟩

/-- An ineligible (empty or unsupported) content type makes
`getRequestBody` return the empty capture. -/
theorem getRequestBody_ineligible (env : LogEnv) (req : RestfulRequest) (ct : String)
    (h : ct = "" ∨
      isSupportedContentType env.cfg.FullAccessLogSupportedContentTypes ct = false) :
    (getRequestBody env req ct).1 = "" := by
  rcases h with h | h
  · subst h; rfl
  · simp [getRequestBody, h]

/-- An ineligible (empty or unsupported) content type makes
`getResponseBody` return the empty capture. -/
theorem getResponseBody_ineligible (env : LogEnv) (respW : ResponseWriterInterceptor)
    (ct : String)
    (h : ct = "" ∨
      isSupportedContentType env.cfg.FullAccessLogSupportedContentTypes ct = false) :
    getResponseBody env respW ct = "" := by
  rcases h with h | h
  · subst h; rfl
  · simp [getResponseBody, h]

/-- The four possible outcomes of the `ParseBool` model. -/
theorem parseBoolGo_cases (s : String) :
    parseBoolGo s = (true, true) ∨ parseBoolGo s = (false, true) ∨
      parseBoolGo s = (false, false) := by
  unfold parseBoolGo
  split <;> simp

/-- On a failed parse, `finishInt` returns 0 (syntax error) or a clamped
64-bit extreme (range error). -/
theorem finishInt_err_val (neg : Bool) (o : Option Nat)
    (h : (finishInt neg o).2 = false) :
    (finishInt neg o).1 = 0 ∨ (finishInt neg o).1 = 2 ^ 63 - 1 ∨
      (finishInt neg o).1 = -(2 ^ 63) := by
  cases o with
  | none => simp [finishInt]
  | some n =>
    unfold finishInt at h ⊢
    dsimp only at h ⊢
    split_ifs at h ⊢ <;> simp_all

/-- Containment in a list survives prepending. -/
theorem contains_extend (t : List Char) {s pat : List Char}
    (h : ∃ l r, s = l ++ (pat ++ r)) : ∃ l r, t ++ s = l ++ (pat ++ r) := by
  obtain ⟨l, r, rfl⟩ := h
  exact ⟨t ++ l, r, by simp⟩

/-- The `request_body=AB[-]AB` run appears once the line reaches the
request-body slot holding the sentinel. -/
theorem mid_request_sentinel (rest : List Char) :
    ∃ l r, ("\" request_body=AB[" : String).data ++ (("-" : String).data ++
        (("]AB response_content_type=\"" : String).data ++ rest)) =
      l ++ (("request_body=AB[-]AB" : String).data ++ r) := by
  refine ⟨("\" " : String).data,
    (" response_content_type=\"" : String).data ++ rest, ?_⟩
  have key : (("\" request_body=AB[" : String).data ++ ("-" : String).data) ++
      ("]AB response_content_type=\"" : String).data =
      (("\" " : String).data ++ ("request_body=AB[-]AB" : String).data) ++
        (" response_content_type=\"" : String).data := by decide
  simp only [← List.append_assoc]
  rw [key]

/-- The `response_body=AB[-]AB` run appears once the line reaches the
response-body slot holding the sentinel. -/
theorem mid_response_sentinel (rest : List Char) :
    ∃ l r, ("\" response_body=AB[" : String).data ++ (("-" : String).data ++
        (("]AB operation=\"" : String).data ++ rest)) =
      l ++ (("response_body=AB[-]AB" : String).data ++ r) := by
  refine ⟨("\" " : String).data, (" operation=\"" : String).data ++ rest, ?_⟩
  have key : (("\" response_body=AB[" : String).data ++ ("-" : String).data) ++
      ("]AB operation=\"" : String).data =
      (("\" " : String).data ++ ("response_body=AB[-]AB" : String).data) ++
        (" operation=\"" : String).data := by decide
  simp only [← List.append_assoc]
  rw [key]

/-! ### The claims -/

/-- C1 (amended): when the request body read fails, the error is only
logged, the capture never aborts, and the capture is the empty string
whenever the failed read yielded no bytes; the downstream handler still
receives a request body (a failure after partial bytes instead captures
those bytes, see the counterexample). -/
theorem claim_C1 (env : LogEnv) (req : RestfulRequest) (ct : String)
    (_herr : req.body.readErr = true) (hempty : req.body.pending = []) :
    (getRequestBody env req ct).1 = "" ∧
    ((getRequestBody env req ct).2).pending = [] := by
  unfold getRequestBody
  split
  · exact ⟨rfl, hempty⟩
  · simp [hempty]

/-- C1 witness: a failed read that yielded no bytes is captured as the
empty string and forwards an empty body. -/
theorem claim_C1_witness :
    (plainRequest "text/plain" ⟨[], true⟩).body.readErr = true ∧
    (getRequestBody (stubEnv (initConfig none none none none none))
        (plainRequest "text/plain" ⟨[], true⟩) "text/plain").1 = "" ∧
    ((getRequestBody (stubEnv (initConfig none none none none none))
        (plainRequest "text/plain" ⟨[], true⟩) "text/plain").2).pending = [] :=
  ⟨rfl, (claim_C1 _ _ "text/plain" rfl rfl).1, (claim_C1 _ _ "text/plain" rfl rfl).2⟩

/-- C1 counterexample: a read that fails after yielding the bytes `ab`
(as `io.ReadAll` reports partial data together with the error) is captured
as `ab`, not as the empty string. -/
theorem claim_C1_counterexample :
    (plainRequest "text/plain" ⟨['a', 'b'], true⟩).body.readErr = true ∧
    (getRequestBody (stubEnv (initConfig none none none none none))
        (plainRequest "text/plain" ⟨['a', 'b'], true⟩) "text/plain").1 = "ab" ∧
    ("ab" : String) ≠ "" := by
  refine ⟨rfl, ?_, by decide⟩
  decide

/-- C3 (confirmed): whatever `getRequestBody` returns (the body, the
size sentinel, or the empty string), the request body stream handed to the
downstream handler carries exactly the original bytes, readable from the
start. -/
theorem claim_C3 (env : LogEnv) (req : RestfulRequest) (ct : String) :
    ((getRequestBody env req ct).2).pending = req.body.pending := by
  unfold getRequestBody
  split
  · rfl
  · dsimp only
    split
    · split
      · rfl
      · split <;> rfl
    · rfl

/-- C5 (confirmed): an empty or policy-ineligible content type makes both
capture functions return the empty string, for every body. -/
theorem claim_C5 (env : LogEnv) (req : RestfulRequest)
    (respW : ResponseWriterInterceptor) (ct : String)
    (h : ct = "" ∨
      isSupportedContentType env.cfg.FullAccessLogSupportedContentTypes ct = false) :
    (getRequestBody env req ct).1 = "" ∧ getResponseBody env respW ct = "" :=
  ⟨getRequestBody_ineligible env req ct h, getResponseBody_ineligible env respW ct h⟩

/-- C5 witness: `application/pdf` is not in the default supported set, so
both captures are empty despite non-empty bodies. -/
theorem claim_C5_witness :
    (getRequestBody (stubEnv (initConfig none none none none none))
        (plainRequest "application/pdf" ⟨['x'], false⟩) "application/pdf").1 = "" ∧
    getResponseBody (stubEnv (initConfig none none none none none))
        ⟨['x'], "application/pdf"⟩ "application/pdf" = "" :=
  claim_C5 _ _ _ _ (Or.inr (by decide))

/-- C6 (confirmed): `isSupportedContentType` holds exactly when some
configured entry occurs contiguously inside the content type (so
`application/json` matches `application/json; charset=utf-8`), and an
empty content type always yields an empty capture in both capture
functions. -/
theorem claim_C6 (types : List String) (ct : String) (env : LogEnv)
    (req : RestfulRequest) (respW : ResponseWriterInterceptor) :
    (isSupportedContentType types ct = true ↔
      ∃ v ∈ types, ∃ l r, ct.data = l ++ v.data ++ r) ∧
    (getRequestBody env req "").1 = "" ∧
    getResponseBody env respW "" = "" := by
  refine ⟨?_, rfl, rfl⟩
  simp [isSupportedContentType, goStringContains, List.any_eq_true,
    containsSeq_eq_true_iff]

/-- C4 (amended): for every non-empty body whose byte length strictly
exceeds the configured maximum, both capture functions return exactly
`data too large`, for every eligible non-empty content type (the
counterexample shows the claim fails without non-emptiness when the
configured maximum is negative). -/
theorem claim_C4 (env : LogEnv) (req : RestfulRequest)
    (respW : ResponseWriterInterceptor) (ct : String)
    (hct : ct ≠ "")
    (hsup : isSupportedContentType env.cfg.FullAccessLogSupportedContentTypes ct = true)
    (hsame : respW.data = req.body.pending)
    (hne : req.body.pending ≠ [])
    (hlen : (req.body.pending.length : Int) > env.cfg.FullAccessLogMaxBodySize) :
    (getRequestBody env req ct).1 = "data too large" ∧
    getResponseBody env respW ct = "data too large" := by
  constructor
  · simp [getRequestBody, hct, hsup, hlen, hne]
  · simp [getResponseBody, hct, hsup, hsame, hlen]

/-- C4 witness: a three-byte `text/plain` body over a two-byte limit is
captured as the sentinel by both functions. -/
theorem claim_C4_witness :
    (getRequestBody (stubEnv ⟨true, ["text/plain"], 2, true, true⟩)
        (plainRequest "text/plain" ⟨['a', 'b', 'c'], false⟩) "text/plain").1 =
      "data too large" ∧
    getResponseBody (stubEnv ⟨true, ["text/plain"], 2, true, true⟩)
        ⟨['a', 'b', 'c'], "text/plain"⟩ "text/plain" = "data too large" :=
  claim_C4 _ _ _ _ (by decide) (by decide) (by decide) (by decide) (by decide)

/-- C4 counterexample: with the configured maximum set to `-1` (accepted
verbatim from the environment), the empty body strictly exceeds the
maximum, yet `getRequestBody` returns the empty string instead of
`data too large` (while `getResponseBody` does return the sentinel). -/
theorem claim_C4_counterexample :
    ((( plainRequest "text/plain" ⟨[], false⟩).body.pending.length : Int) >
      (initConfig none none (some "-1") none none).FullAccessLogMaxBodySize) ∧
    isSupportedContentType
      (initConfig none none (some "-1") none none).FullAccessLogSupportedContentTypes
      "text/plain" = true ∧
    (getRequestBody (stubEnv (initConfig none none (some "-1") none none))
        (plainRequest "text/plain" ⟨[], false⟩) "text/plain").1 = "" ∧
    (getRequestBody (stubEnv (initConfig none none (some "-1") none none))
        (plainRequest "text/plain" ⟨[], false⟩) "text/plain").1 ≠ "data too large" := by
  decide

/-- C9 (amended): in the default configuration the capture policy does
satisfy the stated invariant: the maximum body size is 10240 ≥ 0 and the
supported content-type set is non-empty; the invariant is not preserved
under every external input (see the counterexample). -/
theorem claim_C9 :
    (initConfig none none none none none).FullAccessLogMaxBodySize = 10240 ∧
    0 ≤ (initConfig none none none none none).FullAccessLogMaxBodySize ∧
    (initConfig none none none none none).FullAccessLogSupportedContentTypes ≠ [] := by
  decide

/-- C9 counterexample: the environment value `-5` parses successfully and
is installed verbatim, so after initialization the maximum body size is
negative, violating the claimed invariant. -/
theorem claim_C9_counterexample :
    (parseIntGo "-5").2 = true ∧
    (initConfig none none (some "-5") none none).FullAccessLogMaxBodySize = -5 ∧
    ¬0 ≤ (initConfig none none (some "-5") none none).FullAccessLogMaxBodySize := by
  decide

/-- C2 (amended): on a configuration value that fails to parse, the error
is only logged and initialization completes, but the setting takes the
failed parser's return value rather than its documented default: every
boolean flag becomes false (which coincides with the default only for the
master flag, and overrides the documented `true` default of the
request-body and response-body switches), and the maximum body size
becomes 0 (syntax error) or a clamped 64-bit extreme (range error), not
10240. -/
theorem claim_C2 (sb si : String) (tEnv : Option String)
    (hb : (parseBoolGo sb).2 = false) (hi : (parseIntGo si).2 = false) :
    (initConfig (some sb) tEnv (some si) (some sb) (some sb)).FullAccessLogEnabled =
      false ∧
    (initConfig (some sb) tEnv (some si) (some sb)
      (some sb)).FullAccessLogRequestBodyEnabled = false ∧
    (initConfig (some sb) tEnv (some si) (some sb)
      (some sb)).FullAccessLogResponseBodyEnabled = false ∧
    (initConfig (some sb) tEnv (some si) (some sb)
      (some sb)).FullAccessLogMaxBodySize = (parseIntGo si).1 ∧
    ((parseIntGo si).1 = 0 ∨ (parseIntGo si).1 = 2 ^ 63 - 1 ∨
      (parseIntGo si).1 = -(2 ^ 63)) := by
  have hbv : (parseBoolGo sb).1 = false := by
    rcases parseBoolGo_cases sb with h | h | h <;> simp [h] at hb ⊢
  refine ⟨hbv, hbv, hbv, rfl, ?_⟩
  unfold parseIntGo at hi ⊢
  exact finishInt_err_val _ _ hi

/-- C2 witness: the unparseable value `oops` drives every boolean flag to
false and the maximum body size to 0. -/
theorem claim_C2_witness :
    (initConfig (some "oops") none (some "oops") (some "oops")
      (some "oops")).FullAccessLogEnabled = false ∧
    (initConfig (some "oops") none (some "oops") (some "oops")
      (some "oops")).FullAccessLogRequestBodyEnabled = false ∧
    (initConfig (some "oops") none (some "oops") (some "oops")
      (some "oops")).FullAccessLogResponseBodyEnabled = false ∧
    (initConfig (some "oops") none (some "oops") (some "oops")
      (some "oops")).FullAccessLogMaxBodySize = (parseIntGo "oops").1 ∧
    ((parseIntGo "oops").1 = 0 ∨ (parseIntGo "oops").1 = 2 ^ 63 - 1 ∨
      (parseIntGo "oops").1 = -(2 ^ 63)) :=
  claim_C2 "oops" "oops" none (by decide) (by decide)

/-- C2 counterexample: the value `oops` fails to parse, yet the maximum
body size becomes 0 (not the documented default 10240) and the
request-body and response-body switches become false (not their
documented default true). -/
theorem claim_C2_counterexample :
    (parseIntGo "oops").2 = false ∧
    (parseBoolGo "oops").2 = false ∧
    (initConfig none none (some "oops") none none).FullAccessLogMaxBodySize = 0 ∧
    (initConfig none none (some "oops") none none).FullAccessLogMaxBodySize ≠ 10240 ∧
    (initConfig none none none (some "oops") none).FullAccessLogRequestBodyEnabled =
      false ∧
    (initConfig none none none none
      (some "oops")).FullAccessLogResponseBodyEnabled = false := by
  decide

/-- C7 (confirmed): with the master capture flag disabled, the assembled
record carries the sentinel `-` in both body fields, and the emitted line
contains the runs `request_body=AB[-]AB` and `response_body=AB[-]AB`,
for every request, response and metadata. -/
theorem claim_C7 (env : LogEnv) (req : RestfulRequest)
    (respW : ResponseWriterInterceptor)
    (timeStr method statusStr durationStr lengthStr sourceIP userAgent referer
      traceID requestContentType responseContentType operation : String)
    (h : env.cfg.FullAccessLogEnabled = false) :
    (AccessLog env req respW).1.requestBody = "-" ∧
    (AccessLog env req respW).1.responseBody = "-" ∧
    (∃ l r, (fullAccessLogLine timeStr method statusStr durationStr lengthStr
        sourceIP userAgent referer traceID requestContentType responseContentType
        operation (AccessLog env req respW).1).data =
      l ++ (("request_body=AB[-]AB" : String).data ++ r)) ∧
    (∃ l r, (fullAccessLogLine timeStr method statusStr durationStr lengthStr
        sourceIP userAgent referer traceID requestContentType responseContentType
        operation (AccessLog env req respW).1).data =
      l ++ (("response_body=AB[-]AB" : String).data ++ r)) := by
  have h1 : (AccessLog env req respW).1.requestBody = "-" := by
    simp [AccessLog, h]
  have h2 : (AccessLog env req respW).1.responseBody = "-" := by
    simp [AccessLog, h]
  refine ⟨h1, h2, ?_, ?_⟩
  · simp only [fullAccessLogLine, h1, h2, String.data_append, List.append_assoc]
    iterate 28 apply contains_extend
    exact mid_request_sentinel _
  · simp only [fullAccessLogLine, h1, h2, String.data_append, List.append_assoc]
    iterate 32 apply contains_extend
    exact mid_response_sentinel _

/-- C7 witness: with capture disabled both record body fields are the
sentinel, for a request and response that do carry payloads. -/
theorem claim_C7_witness :
    (AccessLog (stubEnv ⟨false, defaultSupportedContentTypes, 10240, true, true⟩)
        (plainRequest "text/plain" ⟨['h', 'i'], false⟩)
        ⟨['o', 'k'], "text/plain"⟩).1.requestBody = "-" ∧
    (AccessLog (stubEnv ⟨false, defaultSupportedContentTypes, 10240, true, true⟩)
        (plainRequest "text/plain" ⟨['h', 'i'], false⟩)
        ⟨['o', 'k'], "text/plain"⟩).1.responseBody = "-" :=
  ⟨(claim_C7 _ _ _ "t" "GET" "200" "1" "2" "ip" "ua" "ref" "tid" "text/plain"
      "text/plain" "op" rfl).1,
   (claim_C7 _ _ _ "t" "GET" "200" "1" "2" "ip" "ua" "ref" "tid" "text/plain"
      "text/plain" "op" rfl).2.1⟩

/-- C8 (confirmed): for each of namespace, user id and client id, a
non-empty request attribute wins; an absent or empty attribute falls back
to the corresponding token claim when a token is present; with neither,
the assembled field is the empty string (and the record is still
assembled). -/
theorem claim_C8 (env : LogEnv) (req : RestfulRequest)
    (respW : ResponseWriterInterceptor) :
    (∀ v, req.namespaceAttr = some v → v ≠ "" →
      (AccessLog env req respW).1.tokenNamespace = v) ∧
    (∀ j, req.jwtClaims = some j →
      (req.namespaceAttr = none ∨ req.namespaceAttr = some "") →
      (AccessLog env req respW).1.tokenNamespace = j.Namespace) ∧
    (req.jwtClaims = none → (req.namespaceAttr = none ∨ req.namespaceAttr = some "") →
      (AccessLog env req respW).1.tokenNamespace = "") ∧
    (∀ v, req.userIDAttr = some v → v ≠ "" →
      (AccessLog env req respW).1.tokenUserID = v) ∧
    (∀ j, req.jwtClaims = some j →
      (req.userIDAttr = none ∨ req.userIDAttr = some "") →
      (AccessLog env req respW).1.tokenUserID = j.Subject) ∧
    (req.jwtClaims = none → (req.userIDAttr = none ∨ req.userIDAttr = some "") →
      (AccessLog env req respW).1.tokenUserID = "") ∧
    (∀ v, req.clientIDAttr = some v → v ≠ "" →
      (AccessLog env req respW).1.tokenClientID = v) ∧
    (∀ j, req.jwtClaims = some j →
      (req.clientIDAttr = none ∨ req.clientIDAttr = some "") →
      (AccessLog env req respW).1.tokenClientID = j.ClientID) ∧
    (req.jwtClaims = none → (req.clientIDAttr = none ∨ req.clientIDAttr = some "") →
      (AccessLog env req respW).1.tokenClientID = "") := by
  refine ⟨?_, ?_, ?_, ?_, ?_, ?_, ?_, ?_, ?_⟩
  · intro v hv hne
    cases hj : req.jwtClaims <;> simp [AccessLog, hv, hj, hne]
  · intro j hj hattr
    rcases hattr with h | h <;> simp [AccessLog, h, hj]
  · intro hj hattr
    rcases hattr with h | h <;> simp [AccessLog, h, hj]
  · intro v hv hne
    cases hj : req.jwtClaims <;> simp [AccessLog, hv, hj, hne]
  · intro j hj hattr
    rcases hattr with h | h <;> simp [AccessLog, h, hj]
  · intro hj hattr
    rcases hattr with h | h <;> simp [AccessLog, h, hj]
  · intro v hv hne
    cases hj : req.jwtClaims <;> simp [AccessLog, hv, hj, hne]
  · intro j hj hattr
    rcases hattr with h | h <;> simp [AccessLog, h, hj]
  · intro hj hattr
    rcases hattr with h | h <;> simp [AccessLog, h, hj]

/-- C8 witness: with an explicit namespace attribute, an empty user-id
attribute, no client-id attribute and a token carrying all three claims,
the record keeps the attribute namespace and falls back to the token's
subject and client id. -/
theorem claim_C8_witness :
    (AccessLog (stubEnv (initConfig none none none none none)) witnessRequestC8
        ⟨[], ""⟩).1.tokenNamespace = "ns-set" ∧
    (AccessLog (stubEnv (initConfig none none none none none)) witnessRequestC8
        ⟨[], ""⟩).1.tokenUserID = "jwt-sub" ∧
    (AccessLog (stubEnv (initConfig none none none none none)) witnessRequestC8
        ⟨[], ""⟩).1.tokenClientID = "jwt-cid" :=
  ⟨(claim_C8 _ _ _).1 "ns-set" rfl (by decide),
   (claim_C8 _ _ _).2.2.2.2.1 ⟨"jwt-ns", "jwt-sub", "jwt-cid"⟩ rfl (Or.inr rfl),
   (claim_C8 _ _ _).2.2.2.2.2.2.2.1 ⟨"jwt-ns", "jwt-sub", "jwt-cid"⟩ rfl (Or.inl rfl)⟩

/-- C10 (amended): with capture enabled and the per-direction switch on,
an empty or unsupported content type yields the empty body field (rendered
as nothing between the delimiters), while the filter itself writes the
sentinel `-` exactly when the master flag or the per-direction flag is
off; however a captured body whose text is the single character `-` also
renders as `-` (see the counterexample), so the rendered field does not
always distinguish the two. -/
theorem claim_C10 (env : LogEnv) (req : RestfulRequest)
    (respW : ResponseWriterInterceptor) :
    (env.cfg.FullAccessLogEnabled = true →
      env.cfg.FullAccessLogRequestBodyEnabled = true →
      (req.contentType = "" ∨
        isSupportedContentType env.cfg.FullAccessLogSupportedContentTypes
          req.contentType = false) →
      (AccessLog env req respW).1.requestBody = "") ∧
    (env.cfg.FullAccessLogEnabled = true →
      env.cfg.FullAccessLogResponseBodyEnabled = true →
      (respW.responseContentType = "" ∨
        isSupportedContentType env.cfg.FullAccessLogSupportedContentTypes
          respW.responseContentType = false) →
      (AccessLog env req respW).1.responseBody = "") ∧
    ((env.cfg.FullAccessLogEnabled = false ∨
        env.cfg.FullAccessLogRequestBodyEnabled = false) →
      (AccessLog env req respW).1.requestBody = "-") ∧
    ((env.cfg.FullAccessLogEnabled = false ∨
        env.cfg.FullAccessLogResponseBodyEnabled = false) →
      (AccessLog env req respW).1.responseBody = "-") := by
  refine ⟨?_, ?_, ?_, ?_⟩
  · intro h1 h2 h3
    have hg := getRequestBody_ineligible env req req.contentType h3
    cases hm : req.maskedRequestFieldsAttr <;> simp [AccessLog, h1, h2, hm, hg]
  · intro h1 h2 h3
    have hg := getResponseBody_ineligible env respW respW.responseContentType h3
    cases hm : req.maskedResponseFieldsAttr <;> simp [AccessLog, h1, h2, hm, hg]
  · rintro (h | h) <;> simp [AccessLog, h]
  · rintro (h | h) <;> simp [AccessLog, h]

/-- C10 witness: with capture fully enabled an unsupported request content
type renders the empty field, and with the master flag off the field is
the sentinel. -/
theorem claim_C10_witness :
    (AccessLog (stubEnv ⟨true, defaultSupportedContentTypes, 10240, true, true⟩)
        (plainRequest "application/pdf" ⟨['x'], false⟩) ⟨[], ""⟩).1.requestBody = "" ∧
    (AccessLog (stubEnv ⟨false, defaultSupportedContentTypes, 10240, true, true⟩)
        (plainRequest "text/plain" ⟨['x'], false⟩) ⟨[], ""⟩).1.requestBody = "-" :=
  ⟨(claim_C10 _ _ _).1 rfl rfl (Or.inr (by decide)),
   (claim_C10 _ _ _).2.2.1 (Or.inl rfl)⟩

/-- C10 counterexample: with the master flag and both per-direction flags
enabled, a supported request whose body is the single character `-` is
captured and rendered as `-`, so the sentinel is not exclusive to the
disabled flags. -/
theorem claim_C10_counterexample :
    (stubEnv ⟨true, defaultSupportedContentTypes, 10240, true,
      true⟩).cfg.FullAccessLogEnabled = true ∧
    (stubEnv ⟨true, defaultSupportedContentTypes, 10240, true,
      true⟩).cfg.FullAccessLogRequestBodyEnabled = true ∧
    (AccessLog (stubEnv ⟨true, defaultSupportedContentTypes, 10240, true, true⟩)
        (plainRequest "text/plain" ⟨['-'], false⟩) ⟨[], ""⟩).1.requestBody = "-" := by
  decide
